import Mathlib

/-!
Verification of the HeroGraphQLClient (src/testhero.py): a shallow embedding
of the credential loader `read`, the constructor `__init__`, and the two
request methods `execute_query` / `execute_mutation`, together with theorems
settling the specification claims about them.

Modelling choices:
- A JSON value is the inductive `Json`; Python `None` is `Json.null` (which is
  also what `response.json()` yields for a response body that is the JSON
  literal `null`).
- The credential file is `Option (List String)`: `none` models any read
  failure (`FileNotFoundError` or any other exception, both of which the
  source converts to `None`), `some lines` the list of lines `readlines`
  yields.
- The HTTP transport is an oracle `TransportOutcome`: either a response
  (status code, parsed JSON body, raw text) or a raised exception `PyExn`
  carrying whether it is a `requests.exceptions.RequestException` (the only
  class the source catches).
- A method call is a pure function to `CallResult`: the request it builds
  (URL, headers, payload), the Python-level outcome (`Except PyExn Json`,
  `.error` meaning an exception propagates to the caller), the printed
  diagnostic lines, the client after the call, and the caller-supplied
  variables mapping after the call.
-/

/-- A JSON value as produced by `response.json()` / consumed by `json=payload`. -/
inductive Json where
  | null
  | bool (b : Bool)
  | num (n : Int)
  | str (s : String)
  | arr (xs : List Json)
  | obj (kvs : List (String × Json))

/-- A Python exception raised by the transport; `isRequestException` records
whether it is an instance of `requests.exceptions.RequestException`, the class
named in the except clauses of the source. -/
structure PyExn where
  isRequestException : Bool
  msg : String
deriving DecidableEq

/-- Outcome of `requests.post`: a response with status code, parsed JSON body
and raw text, or a raised exception. -/
inductive TransportOutcome where
  | response (status : Nat) (body : Json) (text : String)
  | raised (e : PyExn)

/-- One diagnostic line, mirroring the two-argument `print` calls of the
source: a constant label part and a data part. -/
inductive LogLine where
  | statusCode (label : String) (status : Nat)
  | failed (label : String) (text : String)
  | errored (label : String) (msg : String)
deriving DecidableEq

/-- Python `str.strip()`: remove leading and trailing whitespace characters.
Written over the character list so that it evaluates inside the kernel. -/
def pyStrip (s : String) : String :=
  ⟨((s.data.dropWhile Char.isWhitespace).reverse.dropWhile
      Char.isWhitespace).reverse⟩

/-- Python `s.startswith(p)`. -/
def pyStartsWith (s p : String) : Bool :=
  p.data.isPrefixOf s.data

/-- `HeroGraphQLClient.read` (src/testhero.py:26-37): on a readable file,
keep the lines whose strip is nonempty and that do not start (untrimmed) with
`-----`, strip each kept line, and join with no separator; on any read
failure return Python `None` (here `none`). -/
def read (content : Option (List String)) : Option String :=
  match content with
  | none => none
  | some lines =>
      some (String.join ((lines.filter
        (fun line => pyStrip line != "" && !(pyStartsWith line "-----"))).map
        (fun line => pyStrip line)))

/-- The client state stored by `__init__` (src/testhero.py:8-16). -/
structure Client where
  url : String
  api_key : String
  headers : List (String × String)
deriving DecidableEq

/-- The header dict built at src/testhero.py:12-16. -/
def mkHeaders (api_key : String) : List (String × String) :=
  [("Content-Type", "application/json"),
   ("Accept", "application/json"),
   ("Authorization", "Bearer " ++ api_key)]

/-- `HeroGraphQLClient.__init__` (src/testhero.py:4-16): load the key with
`read`; if the result is falsy (Python `None` or the empty string) raise
`ValueError`, modelled as `.error`; otherwise store url, key and headers. -/
def clientInit (url : String) (content : Option (List String)) :
    Except String Client :=
  match read content with
  | none => .error "API key could not be read from the provided .pem file."
  | some key =>
      if key = "" then
        .error "API key could not be read from the provided .pem file."
      else
        .ok { url := url, api_key := key, headers := mkHeaders key }

/-- Python truthiness of the `variables` argument at src/testhero.py:48/72:
true exactly for a present, non-empty mapping. -/
def dictTruthy (vars : Option (List (String × Json))) : Bool :=
  match vars with
  | some (_ :: _) => true
  | _ => false

/-- The HTTP request the method hands to `requests.post`. -/
structure HttpRequest where
  url : String
  headers : List (String × String)
  payload : List (String × Json)

/-- Everything observable about one method call. -/
structure CallResult where
  request : HttpRequest
  result : Except PyExn Json
  log : List LogLine
  client' : Client
  vars' : Option (List (String × Json))

/-- `HeroGraphQLClient.execute_query` (src/testhero.py:39-61). -/
def execute_query (c : Client) (query : String)
    (vars : Option (List (String × Json))) (outcome : TransportOutcome) :
    CallResult :=
  let payload : List (String × Json) := [("query", Json.str query)]
  let payload : List (String × Json) :=
    if dictTruthy vars then
      payload ++ [("variables", Json.obj (vars.getD []))]
    else payload
  let req : HttpRequest := ⟨c.url, c.headers, payload⟩
  match outcome with
  | .response status body text =>
      if status = 200 then
        { request := req, result := .ok body,
          log := [.statusCode "Query" status],
          client' := c, vars' := vars }
      else
        { request := req, result := .ok .null,
          log := [.statusCode "Query" status, .failed "query" text],
          client' := c, vars' := vars }
  | .raised e =>
      if e.isRequestException then
        { request := req, result := .ok .null,
          log := [.errored "query" e.msg],
          client' := c, vars' := vars }
      else
        { request := req, result := .error e,
          log := [],
          client' := c, vars' := vars }

/-- `HeroGraphQLClient.execute_mutation` (src/testhero.py:63-85). -/
def execute_mutation (c : Client) (mutation : String)
    (vars : Option (List (String × Json))) (outcome : TransportOutcome) :
    CallResult :=
  let payload : List (String × Json) := [("query", Json.str mutation)]
  let payload : List (String × Json) :=
    if dictTruthy vars then
      payload ++ [("variables", Json.obj (vars.getD []))]
    else payload
  let req : HttpRequest := ⟨c.url, c.headers, payload⟩
  match outcome with
  | .response status body text =>
      if status = 200 then
        { request := req, result := .ok body,
          log := [.statusCode "Mutation" status],
          client' := c, vars' := vars }
      else
        { request := req, result := .ok .null,
          log := [.statusCode "Mutation" status, .failed "mutation" text],
          client' := c, vars' := vars }
  | .raised e =>
      if e.isRequestException then
        { request := req, result := .ok .null,
          log := [.errored "mutation" e.msg],
          client' := c, vars' := vars }
      else
        { request := req, result := .error e,
          log := [],
          client' := c, vars' := vars }

/-- The loader algorithm as the specification words it (spec section 4.1):
discard lines empty after trimming, discard lines whose TRIMMED content
begins with `-----`, trim the rest, concatenate with no separator. -/
def readSpecLines (lines : List String) : String :=
  String.join ((lines.filter
    (fun line => pyStrip line != "" &&
      !(pyStartsWith (pyStrip line) "-----"))).map
    (fun line => pyStrip line))

/-- The loader algorithm as amended: the `-----` prefix test is applied to
the RAW (untrimmed) line, as at src/testhero.py:30. -/
def readAmendedLines (lines : List String) : String :=
  String.join ((lines.filter
    (fun line => pyStrip line != "" && !(pyStartsWith line "-----"))).map
    (fun line => pyStrip line))

/-- Relabelling that turns each query-method log line into the corresponding
mutation-method log line. -/
def toMutationLabel : LogLine → LogLine
  | .statusCode _ s => .statusCode "Mutation" s
  | .failed _ t => .failed "mutation" t
  | .errored _ m => .errored "mutation" m

/-- C8: the loader applied to the four example lines yields the credential
"abcdef": the two delimiter lines are discarded, the body lines are stripped
and concatenated in order with no separator. -/
theorem C8_pem_example :
    read (some ["-----BEGIN KEY-----", " abc ", "def", "-----END KEY-----"]) =
      some "abcdef" := by
  decide

/-- C2 counterexample: on the single line consisting of a space followed by
`-----X`, the code keeps the line (the raw line does not start with `-----`)
and returns `-----X`, while the claimed algorithm tests the trimmed content,
discards the line, and returns the empty credential. -/
theorem C2_trim_order_counterexample :
    read (some [" -----X"]) = some "-----X" ∧
    readSpecLines [" -----X"] = "" ∧
    read (some [" -----X"]) ≠ some (readSpecLines [" -----X"]) := by
  refine ⟨by decide, by decide, by decide⟩

/-- C2 amended: the loader discards lines that are empty after trimming and
lines whose RAW (untrimmed) content begins with `-----`, trims each remaining
line, and concatenates the remaining trimmed lines in file order with no
separator. -/
theorem C2_raw_delimiter_test (lines : List String) :
    read (some lines) = some (readAmendedLines lines) := rfl

/-- C1 counterexample: a transport exception that is not a
`requests.exceptions.RequestException` (for example the `TypeError` raised
when the variables mapping is not JSON-serializable, or any other exception
class) is not caught by the except clause and propagates to the caller of
either method. -/
theorem C1_uncaught_exception_propagates :
    (execute_query ⟨"u", "k", mkHeaders "k"⟩ "q" none
      (TransportOutcome.raised ⟨false, "boom"⟩)).result =
        Except.error ⟨false, "boom"⟩ ∧
    (execute_mutation ⟨"u", "k", mkHeaders "k"⟩ "m" none
      (TransportOutcome.raised ⟨false, "boom"⟩)).result =
        Except.error ⟨false, "boom"⟩ := ⟨rfl, rfl⟩

/-- C1 amended: provided every exception the transport raises is a
`requests.exceptions.RequestException` (the class the except clauses name,
and the only one the requests library documents itself as raising), neither
method ever propagates an exception; and on every raised exception the
result is the absence value `None` together with a diagnostic log line. -/
theorem C1_request_exceptions_absorbed (c : Client) (q : String)
    (v : Option (List (String × Json))) (o : TransportOutcome)
    (h : ∀ e, o = TransportOutcome.raised e → e.isRequestException = true) :
    ((∃ j, (execute_query c q v o).result = Except.ok j) ∧
     (∃ j, (execute_mutation c q v o).result = Except.ok j)) ∧
    (∀ e, o = TransportOutcome.raised e →
      (execute_query c q v o).result = Except.ok Json.null ∧
      (execute_query c q v o).log ≠ [] ∧
      (execute_mutation c q v o).result = Except.ok Json.null ∧
      (execute_mutation c q v o).log ≠ []) := by
  cases o with
  | response st body text =>
      refine ⟨⟨?_, ?_⟩, ?_⟩
      · by_cases hst : st = 200 <;>
          simp [execute_query, hst]
      · by_cases hst : st = 200 <;>
          simp [execute_mutation, hst]
      · intro e he
        cases he
  | raised e =>
      have hre : e.isRequestException = true := h e rfl
      refine ⟨⟨?_, ?_⟩, ?_⟩
      · exact ⟨Json.null, by simp [execute_query, hre]⟩
      · exact ⟨Json.null, by simp [execute_mutation, hre]⟩
      · intro e' he'
        cases he'
        simp [execute_query, execute_mutation, hre]

/-- C1 amended, witness: a concrete raised `RequestException` is absorbed by
both methods. -/
theorem C1_request_exceptions_absorbed_witness :
    ((∃ j, (execute_query ⟨"u", "k", mkHeaders "k"⟩ "q" none
        (TransportOutcome.raised ⟨true, "dns failure"⟩)).result =
          Except.ok j) ∧
     (∃ j, (execute_mutation ⟨"u", "k", mkHeaders "k"⟩ "q" none
        (TransportOutcome.raised ⟨true, "dns failure"⟩)).result =
          Except.ok j)) ∧
    (∀ e, TransportOutcome.raised ⟨true, "dns failure"⟩ =
        TransportOutcome.raised e →
      (execute_query ⟨"u", "k", mkHeaders "k"⟩ "q" none
        (TransportOutcome.raised ⟨true, "dns failure"⟩)).result =
          Except.ok Json.null ∧
      (execute_query ⟨"u", "k", mkHeaders "k"⟩ "q" none
        (TransportOutcome.raised ⟨true, "dns failure"⟩)).log ≠ [] ∧
      (execute_mutation ⟨"u", "k", mkHeaders "k"⟩ "q" none
        (TransportOutcome.raised ⟨true, "dns failure"⟩)).result =
          Except.ok Json.null ∧
      (execute_mutation ⟨"u", "k", mkHeaders "k"⟩ "q" none
        (TransportOutcome.raised ⟨true, "dns failure"⟩)).log ≠ []) :=
  C1_request_exceptions_absorbed ⟨"u", "k", mkHeaders "k"⟩ "q" none
    (TransportOutcome.raised ⟨true, "dns failure"⟩)
    (fun e he => by cases he; rfl)

/-- C3: for a transport response, both methods return the parsed JSON body
exactly when the status code is 200, and the absence value `None` for every
other status code, regardless of the body. -/
theorem C3_status_gate (c : Client) (q m : String)
    (v : Option (List (String × Json))) (st : Nat) (body : Json)
    (text : String) :
    (execute_query c q v (TransportOutcome.response st body text)).result =
      (if st = 200 then Except.ok body else Except.ok Json.null) ∧
    (execute_mutation c m v (TransportOutcome.response st body text)).result =
      (if st = 200 then Except.ok body else Except.ok Json.null) := by
  by_cases hst : st = 200 <;>
    simp [execute_query, execute_mutation, hst]

/-- C4: the request body both methods build maps "query" to the document,
and carries a "variables" key exactly when the variables argument is present
and non-empty; otherwise the body is just the singleton "query" object. -/
theorem C4_payload_shape (c : Client) (q m : String)
    (v : Option (List (String × Json))) (o : TransportOutcome) :
    (execute_query c q v o).request.payload =
      (if dictTruthy v then
        [("query", Json.str q), ("variables", Json.obj (v.getD []))]
       else [("query", Json.str q)]) ∧
    (execute_mutation c m v o).request.payload =
      (if dictTruthy v then
        [("query", Json.str m), ("variables", Json.obj (v.getD []))]
       else [("query", Json.str m)]) ∧
    (dictTruthy v = true ↔ ∃ kvs, v = some kvs ∧ kvs ≠ []) := by
  refine ⟨?_, ?_, ?_⟩
  · cases o with
    | response st body text =>
        by_cases hst : st = 200 <;>
          by_cases hv : dictTruthy v <;>
            simp [execute_query, hst, hv]
    | raised e =>
        by_cases hre : e.isRequestException <;>
          by_cases hv : dictTruthy v <;>
            simp [execute_query, hre, hv]
  · cases o with
    | response st body text =>
        by_cases hst : st = 200 <;>
          by_cases hv : dictTruthy v <;>
            simp [execute_mutation, hst, hv]
    | raised e =>
        by_cases hre : e.isRequestException <;>
          by_cases hv : dictTruthy v <;>
            simp [execute_mutation, hre, hv]
  · cases v with
    | none => simp [dictTruthy]
    | some kvs => cases kvs <;> simp [dictTruthy]

/-- C5: construction succeeds and produces a client exactly when the loader
yields a non-empty token; when the loader yields `None` (missing file or
other I/O failure) or an empty string, construction fails with the
invalid-credential error and no client object is produced. -/
theorem C5_construction_gate (url : String) (content : Option (List String)) :
    ((∃ c, clientInit url content = Except.ok c) ↔
      (∃ key, read content = some key ∧ key ≠ "")) ∧
    ((∀ c, clientInit url content ≠ Except.ok c) →
      clientInit url content =
        Except.error
          "API key could not be read from the provided .pem file.") := by
  unfold clientInit
  cases hr : read content with
  | none => simp
  | some key =>
      by_cases hk : key = "" <;> simp [hk]

/-- C6: a client constructed from a loader output `key ≠ ""` stores exactly
the three fixed headers with `Authorization: Bearer <key>`, and every call of
either method sends exactly those stored headers and leaves the stored url,
token and headers unchanged. -/
theorem C6_fixed_headers (url : String) (content : Option (List String))
    (key : String) (hread : read content = some key) (hne : key ≠ "") :
    clientInit url content =
      Except.ok
        { url := url, api_key := key,
          headers :=
            [("Content-Type", "application/json"),
             ("Accept", "application/json"),
             ("Authorization", "Bearer " ++ key)] } ∧
    (∀ (c : Client) (q : String) (v : Option (List (String × Json)))
        (o : TransportOutcome),
      (execute_query c q v o).request.headers = c.headers ∧
      (execute_query c q v o).client' = c ∧
      (execute_mutation c q v o).request.headers = c.headers ∧
      (execute_mutation c q v o).client' = c) := by
  constructor
  · unfold clientInit
    rw [hread]
    simp [hne, mkHeaders]
  · intro c q v o
    cases o with
    | response st body text =>
        by_cases hst : st = 200 <;>
          simp [execute_query, execute_mutation, hst]
    | raised e =>
        by_cases hre : e.isRequestException <;>
          simp [execute_query, execute_mutation, hre]

/-- C6 witness: a concrete one-line credential file. -/
theorem C6_fixed_headers_witness :
    clientInit "https://login.hero-software.de/api/external/v7/graphql"
        (some ["k"]) =
      Except.ok
        { url := "https://login.hero-software.de/api/external/v7/graphql",
          api_key := "k",
          headers :=
            [("Content-Type", "application/json"),
             ("Accept", "application/json"),
             ("Authorization", "Bearer " ++ "k")] } ∧
    (execute_query ⟨"u", "k", mkHeaders "k"⟩ "q" none
        (TransportOutcome.response 200 Json.null "")).request.headers =
      Client.headers ⟨"u", "k", mkHeaders "k"⟩ :=
  ⟨(C6_fixed_headers
      "https://login.hero-software.de/api/external/v7/graphql"
      (some ["k"]) "k" (by decide) (by decide)).1,
   ((C6_fixed_headers "u" (some ["k"]) "k" (by decide) (by decide)).2
      ⟨"u", "k", mkHeaders "k"⟩ "q" none
      (TransportOutcome.response 200 Json.null "")).1⟩

/-- C7: for every client, document, variables argument and transport outcome,
`execute_query` and `execute_mutation` build the same request, return the
same result, leave the client and the variables mapping identical, and their
logs agree line by line up to the Query/Mutation labelling. -/
theorem C7_query_mutation_equiv (c : Client) (d : String)
    (v : Option (List (String × Json))) (o : TransportOutcome) :
    (execute_mutation c d v o).request = (execute_query c d v o).request ∧
    (execute_mutation c d v o).result = (execute_query c d v o).result ∧
    (execute_mutation c d v o).client' = (execute_query c d v o).client' ∧
    (execute_mutation c d v o).vars' = (execute_query c d v o).vars' ∧
    (execute_mutation c d v o).log =
      (execute_query c d v o).log.map toMutationLabel := by
  cases o with
  | response st body text =>
      by_cases hst : st = 200 <;>
        simp [execute_query, execute_mutation, toMutationLabel, hst]
  | raised e =>
      by_cases hre : e.isRequestException <;>
        simp [execute_query, execute_mutation, toMutationLabel, hre]

/-- C9: a 200 response whose body is the JSON literal `null` makes both
methods return `None`: exactly the value returned for a 500 response and for
an absorbed transport exception, so the caller cannot tell this success from
a failure. -/
theorem C9_null_body_indistinguishable :
    (execute_query ⟨"u", "k", mkHeaders "k"⟩ "q" none
      (TransportOutcome.response 200 Json.null "null")).result =
        Except.ok Json.null ∧
    (execute_query ⟨"u", "k", mkHeaders "k"⟩ "q" none
      (TransportOutcome.response 200 Json.null "null")).result =
    (execute_query ⟨"u", "k", mkHeaders "k"⟩ "q" none
      (TransportOutcome.response 500 (Json.str "err") "err")).result ∧
    (execute_query ⟨"u", "k", mkHeaders "k"⟩ "q" none
      (TransportOutcome.response 200 Json.null "null")).result =
    (execute_query ⟨"u", "k", mkHeaders "k"⟩ "q" none
      (TransportOutcome.raised ⟨true, "refused"⟩)).result ∧
    (execute_mutation ⟨"u", "k", mkHeaders "k"⟩ "m" none
      (TransportOutcome.response 200 Json.null "null")).result =
        Except.ok Json.null ∧
    (execute_mutation ⟨"u", "k", mkHeaders "k"⟩ "m" none
      (TransportOutcome.response 200 Json.null "null")).result =
    (execute_mutation ⟨"u", "k", mkHeaders "k"⟩ "m" none
      (TransportOutcome.response 500 (Json.str "err") "err")).result :=
  ⟨rfl, rfl, rfl, rfl, rfl⟩

/-- C10: neither method ever changes the caller-supplied variables mapping:
its value after the call equals the value passed in, on every outcome. -/
theorem C10_variables_unchanged (c : Client) (d : String)
    (v : Option (List (String × Json))) (o : TransportOutcome) :
    (execute_query c d v o).vars' = v ∧
    (execute_mutation c d v o).vars' = v := by
  cases o with
  | response st body text =>
      by_cases hst : st = 200 <;>
        simp [execute_query, execute_mutation, hst]
  | raised e =>
      by_cases hre : e.isRequestException <;>
        simp [execute_query, execute_mutation, hre]
